import Mathlib

/-!
Verification of the stepcounter logging watch face (`stepcounter_logging_face.c`)
and its arithmetic helpers (`math_bench.c`).

The C code is shallowly embedded: 16-bit signed samples are integers in
`[-32768, 32767]`, machine arithmetic is made explicit with `% 65536` and
friends, the mutable session state (including the module-level chirp buffer
globals `chirp_data_ptr` / `chirp_data_ix` / `chirp_data_len`) is a record
`FaceState`, and the external collaborators (filesystem, accelerometer FIFO,
tone encoder, clock) enter as explicit parameters of each handler.  A failed
`lfs_file_write` is modelled as appending no bytes; only its effect on the
error code is relevant to the properties below.
-/

namespace StepLog

/-! ### Constants from `stepcounter_logging_face.c` -/

def LOG_FILE_MARKER : Nat := 255

def ERROR_OPEN_FILE : Nat := 1

def ERROR_READ_FILE : Nat := 2

def ERROR_WRITE_HEADER : Nat := 3

def ERROR_WRITE_DATA : Nat := 5

def ERROR_ALLOC_MEM : Nat := 6

def MIN_FS_SPACE : Nat := 512

def LOG_DATA_XYZ : Nat := 1

def LOG_DATA_MAG : Nat := 2

def LOG_DATA_L1 : Nat := 4

/-! ### Fast arithmetic helpers -/

/-- One 3-axis accelerometer sample (`lis2dw_reading_t`), each axis a signed
16-bit value. -/
structure Reading where
  x : Int
  y : Int
  z : Int
deriving DecidableEq

/-- `fast_abs16`: the branch-free 16-bit absolute value.  The C source is
`int16_t mask = x >> 15; return (x + mask) ^ mask;` computed in (at least)
32-bit signed arithmetic and truncated to the `uint16_t` return type, which
the final `% 65536` makes explicit.  `>>> (15 : Int)` is the arithmetic
right shift. -/
def fast_abs16 (x : Int) : Nat :=
  ((Int.xor (x + (x >>> (15 : Int))) (x >>> (15 : Int))) % 65536).toNat

/-- The three-swap sorting network of `fast_l2_norm`, bringing the triple
into descending order: `if (ax < ay) swap; if (ay < az) swap;
if (ax < ay) swap;`. -/
def sort3 (t : Nat × Nat × Nat) : Nat × Nat × Nat :=
  let t1 := if t.1 < t.2.1 then (t.2.1, t.1, t.2.2) else t
  let t2 := if t1.2.1 < t1.2.2 then (t1.1, t1.2.2, t1.2.1) else t1
  if t2.1 < t2.2.1 then (t2.2.1, t2.1, t2.2.2) else t2

/-- `fast_l2_norm`: approximate Euclidean norm of a 3-axis sample.  Absolute
values, descending sort, then `ax + ((15 * ay) >> 4) + ((3 * az) >> 3)`; the
shifts act on non-negative values that fit easily in `int`, so they are the
`Nat` shifts. -/
def fast_l2_norm (r : Reading) : Nat :=
  (sort3 (fast_abs16 r.x, fast_abs16 r.y, fast_abs16 r.z)).1
    + ((15 * (sort3 (fast_abs16 r.x, fast_abs16 r.y, fast_abs16 r.z)).2.1) >>> 4)
    + ((3 * (sort3 (fast_abs16 r.x, fast_abs16 r.y, fast_abs16 r.z)).2.2) >>> 3)

/-- `fast_l1_norm`: sum of the three absolute axis values. -/
def fast_l1_norm (r : Reading) : Nat :=
  fast_abs16 r.x + fast_abs16 r.y + fast_abs16 r.z

/-- Stated from the specification text: the mask-based absolute-value
identity `(x ^ (x >> 15)) - (x >> 15)`. -/
def mask_abs_spec (x : Int) : Int :=
  Int.xor x (x >>> (15 : Int)) - (x >>> (15 : Int))

/-- Stated from the specification text: take the absolute values of the
three axes, sort them descending as `a ≥ b ≥ c`, and compute
`a + floor(15*b/16) + floor(3*c/8)` in integer arithmetic. -/
def approxL2_spec (x y z : Int) : Nat :=
  let a := max x.natAbs (max y.natAbs z.natAbs)
  let c := min x.natAbs (min y.natAbs z.natAbs)
  let b := x.natAbs + y.natAbs + z.natAbs - a - c
  a + 15 * b / 16 + 3 * c / 8

/-! ### Session and transmission state -/

/-- The three pages of the face. -/
inductive Page where
  | recording
  | labeling
  | chirping
deriving DecidableEq

/-- The stored chirp tick function (`tick_fun`): either the countdown handler
or the transmit handler. -/
inductive TickFun where
  | countdown
  | transmit
deriving DecidableEq

/-- The session state (`stepcounter_logging_state_t`) together with the
module-level chirp buffer globals and the externally observable side effects
(buzzer, bell indicator, requested tick frequency).  `fileOpen` tracks
whether `state->file` currently holds an open log-file handle. -/
structure FaceState where
  start_ts : Nat
  data_type : Nat
  index : Nat
  error : Nat
  steps : Nat
  page : Page
  fileOpen : Bool
  chirping : Bool
  tick_count : Int
  tick_compare : Int
  seq_pos : Nat
  tick_fun : TickFun
  chirp_data_ptr : Option (List Nat)
  chirp_data_ix : Nat
  chirp_data_len : Nat
  buzzerOn : Bool
  bell : Bool
  tickFreq : Nat
deriving DecidableEq

/-- A neutral zeroed state, as produced by `stepcounter_logging_face_setup`
(which zeroes the allocation, then sets `index = 1`, `data_type = LOG_DATA_MAG`
and `page = PAGE_RECORDING`). -/
def setupState : FaceState where
  start_ts := 0
  data_type := LOG_DATA_MAG
  index := 1
  error := 0
  steps := 0
  page := Page.recording
  fileOpen := false
  chirping := false
  tick_count := 0
  tick_compare := 0
  seq_pos := 0
  tick_fun := TickFun.countdown
  chirp_data_ptr := none
  chirp_data_ix := 0
  chirp_data_len := 0
  buzzerOn := false
  bell := false
  tickFreq := 1

/-! ### Log writer -/

/-- `_log_open`: open the log file for append; on failure set
`ERROR_OPEN_FILE` and return (the handle is not opened). -/
def log_open (openOk : Bool) (s : FaceState) : FaceState :=
  if openOk then { s with fileOpen := true }
  else { s with error := ERROR_OPEN_FILE }

/-- `_log_close`: sync and close; close errors are deliberately ignored. -/
def log_close (s : FaceState) : FaceState :=
  { s with fileOpen := false }

/-- `_start_recording`: clear the FIFO, open the log file, set `start_ts`
from the clock, then write the header; if the accumulated byte count differs
from the expected header size set `ERROR_WRITE_HEADER`.  Note that
`start_ts` is assigned unconditionally, before the open result is ever
inspected. -/
def start_recording (openOk headerOk : Bool) (now_ts : Nat) (s : FaceState) : FaceState :=
  let s1 := log_open openOk s
  let s2 := { s1 with start_ts := now_ts % 4294967296 }
  if headerOk then s2 else { s2 with error := ERROR_WRITE_HEADER }

/-- `_stop_recording`: close the file, reset `start_ts`, increment the
8-bit session index. -/
def stop_recording (s : FaceState) : FaceState :=
  { log_close s with start_ts := 0, index := (s.index + 1) % 256 }

/-- Little-endian bytes of a signed 16-bit value as written by
`lfs_file_write(..., &reading.x, 2)`. -/
def int16_bytes (v : Int) : List Nat :=
  [((v % 65536).toNat) % 256, ((v % 65536).toNat) / 256]

/-- Magnitude selected by the data-type flags: L1 if `LOG_DATA_L1` is set,
otherwise the approximate L2 norm. -/
def mag_value (dt : Nat) (r : Reading) : Nat :=
  if dt &&& LOG_DATA_L1 ≠ 0 then fast_l1_norm r else fast_l2_norm r

/-- The 3-byte little-endian packing of the magnitude. -/
def mag_bytes (dt : Nat) (r : Reading) : List Nat :=
  [mag_value dt r % 256, mag_value dt r / 256 % 256, mag_value dt r / 65536 % 256]

/-- One loop iteration of `_log_data` for a single sample: the optional
X/Y/Z triple (three writes whose summed return is checked once) followed by
the optional magnitude write.  `wok i` tells whether the `i`-th
`lfs_file_write` of this block is full-length.  Returns the appended bytes,
the success flag, and the next write index. -/
def sample_write (wok : Nat → Bool) (i : Nat) (dt : Nat) (r : Reading) :
    List Nat × Bool × Nat :=
  let xyzBytes : List Nat :=
    if dt &&& LOG_DATA_XYZ ≠ 0 then
      (if wok i then int16_bytes r.x else [])
        ++ (if wok (i + 1) then int16_bytes r.y else [])
        ++ (if wok (i + 2) then int16_bytes r.z else [])
    else []
  let xyzOk : Bool :=
    if dt &&& LOG_DATA_XYZ ≠ 0 then wok i && wok (i + 1) && wok (i + 2) else true
  let i1 := if dt &&& LOG_DATA_XYZ ≠ 0 then i + 3 else i
  if ¬ xyzOk then (xyzBytes, false, i1)
  else if dt &&& LOG_DATA_MAG ≠ 0 then
    if wok i1 then (xyzBytes ++ mag_bytes dt r, true, i1 + 1)
    else (xyzBytes, false, i1 + 1)
  else (xyzBytes, true, i1)

/-- The sample loop of `_log_data`: samples are processed in FIFO order and
the loop is aborted on the first short write. -/
def log_samples (wok : Nat → Bool) (dt : Nat) : List Reading → Nat → List Nat × Bool
  | [], _ => ([], true)
  | r :: rest, i =>
    let res := sample_write wok i dt r
    if res.2.1 then
      let res2 := log_samples wok dt rest res.2.2
      (res.1 ++ res2.1, res2.2)
    else (res.1, false)

/-- `_log_data`: no-op on an empty FIFO; otherwise write the count byte and
then each sample, setting `ERROR_WRITE_DATA` and aborting the batch on any
short write.  Returns the updated state and the bytes appended to the log
file by this call. -/
def log_data (wok : Nat → Bool) (fifo : List Reading) (s : FaceState) :
    FaceState × List Nat :=
  if fifo.length = 0 then (s, [])
  else if ¬ wok 0 then ({ s with error := ERROR_WRITE_DATA }, [])
  else
    let res := log_samples wok s.data_type fifo 1
    if res.2 then (s, (fifo.length % 256) :: res.1)
    else ({ s with error := ERROR_WRITE_DATA }, (fifo.length % 256) :: res.1)

/-- `_log_steps`: open the file, write the marker byte (checking the
returned length `r1` against 1), write the 2-byte step count (checking the
returned length `r2` against 2), close, and clear `steps`.  On a short
write: set `ERROR_WRITE_DATA` and return, with no close and no clearing of
`steps`. -/
def log_steps (openOk : Bool) (r1 r2 : Nat) (s : FaceState) : FaceState :=
  let s1 := log_open openOk s
  if r1 ≠ 1 then { s1 with error := ERROR_WRITE_DATA }
  else if r2 ≠ 2 then { s1 with error := ERROR_WRITE_DATA }
  else { log_close s1 with steps := 0 }

/-! ### Page transitions -/

/-- `_switch_to_labeling`: request 4 Hz ticks and show the labeling page. -/
def switch_to_labeling (s : FaceState) : FaceState :=
  { s with tickFreq := 4, page := Page.labeling }

/-- `_switch_to_recording`: request 1 Hz ticks and show the recording page. -/
def switch_to_recording (s : FaceState) : FaceState :=
  { s with tickFreq := 1, page := Page.recording }

/-- `_switch_to_chirping`: request 1 Hz ticks and show the chirping page. -/
def switch_to_chirping (s : FaceState) : FaceState :=
  { s with tickFreq := 1, page := Page.chirping }

/-- `_enforce_quota`: if the filesystem free space is below `MIN_FS_SPACE`,
stop the recording and switch to the labeling page. -/
def enforce_quota (freeSpace : Int) (s : FaceState) : FaceState :=
  if freeSpace < (MIN_FS_SPACE : Int) then switch_to_labeling (stop_recording s)
  else s

/-! ### Recording and labeling handlers -/

/-- External inputs consumed by one recording-page tick: the drained FIFO
contents, the filesystem free space, and the per-write success oracle. -/
structure RecEnv where
  fifo : List Reading
  freeSpace : Int
  wok : Nat → Bool

/-- The `EVENT_TICK` arm of `_recording_loop`: while a session is active,
drain the FIFO, write the data block, clear the FIFO, then enforce the
quota.  Returns the new state and the bytes appended to the log file during
this tick. -/
def recording_tick (env : RecEnv) (s : FaceState) : FaceState × List Nat :=
  if s.start_ts ≠ 0 then
    (enforce_quota env.freeSpace (log_data env.wok env.fifo s).1,
     (log_data env.wok env.fifo s).2)
  else (s, [])

/-- The `EVENT_ALARM_BUTTON_UP` arm of `_recording_loop`: start a session
if none is active, otherwise stop it and switch to labeling. -/
def recording_alarm_up (openOk headerOk : Bool) (now_ts : Nat) (s : FaceState) : FaceState :=
  if s.start_ts = 0 then start_recording openOk headerOk now_ts s
  else switch_to_labeling (stop_recording s)

/-- The `EVENT_LIGHT_BUTTON_DOWN` arm of `_labeling_loop`:
`steps = (steps > 0) ? steps - 1 : 0`. -/
def labeling_light_down (s : FaceState) : FaceState :=
  { s with steps := if s.steps > 0 then s.steps - 1 else 0 }

/-- The `EVENT_ALARM_BUTTON_DOWN` arm of `_labeling_loop`:
`steps += 10` on the 16-bit counter. -/
def labeling_alarm_down (s : FaceState) : FaceState :=
  { s with steps := (s.steps + 10) % 65536 }

/-! ### Transmission scheduler -/

/-- `_chirp_quit`: clear the bell indicator, stop the buzzer, request the
1 Hz idle tick rate, clear the chirping flag, free the buffer if non-NULL,
and reset pointer, cursor and length.  The returned flag records whether
`free` was called on a non-NULL pointer. -/
def chirp_quit (s : FaceState) : FaceState × Bool :=
  ({ s with bell := false, buzzerOn := false, tickFreq := 1, chirping := false,
            chirp_data_ptr := none, chirp_data_ix := 0, chirp_data_len := 0 },
   s.chirp_data_ptr.isSome)

/-- `_chirp_tick_transmit`: ask the encoder for the next tone (`tone` is the
encoder's answer); the sentinel 255 triggers the full `_chirp_quit`
teardown, any other tone is programmed into the buzzer and sounded. -/
def chirp_tick_transmit (tone : Nat) (s : FaceState) : FaceState :=
  if tone = 255 then (chirp_quit s).1
  else { s with buzzerOn := true }

/-- External filesystem behaviour for one `_load_log_file` call. -/
structure FsEnv where
  fileExists : Bool
  fileSize : Nat
  mallocOk : Bool
  readOk : Bool
  contents : List Nat

/-- `_load_log_file`: existence check (`ERROR_OPEN_FILE` on failure), then
size query and `malloc` (`ERROR_ALLOC_MEM` on failure, with the length
already set and the pointer NULL), then the read (`ERROR_READ_FILE` on
failure).  Each failure merely records the error and returns. -/
def load_log_file (fs : FsEnv) (s : FaceState) : FaceState :=
  if ¬ fs.fileExists then { s with error := ERROR_OPEN_FILE }
  else
    let s1 := { s with chirp_data_len := fs.fileSize % 65536 }
    if ¬ fs.mallocOk then { s1 with chirp_data_ptr := none, error := ERROR_ALLOC_MEM }
    else
      let s2 := { s1 with chirp_data_ptr := some (List.replicate (fs.fileSize % 65536) 0) }
      if ¬ fs.readOk then { s2 with error := ERROR_READ_FILE }
      else { s2 with chirp_data_ptr := some fs.contents }

/-- `_chirp_countdown_tick`: when `seq_pos` reaches `8 * 3` the countdown is
over: reprogram the tick divider, reset `seq_pos`, initialise the encoder,
install `_chirp_tick_transmit` as the tick function, and then (last) load
the log file.  Otherwise sound or silence the alert tone according to
`seq_pos % 8` and advance `seq_pos`. -/
def chirp_countdown_tick (fs : FsEnv) (s : FaceState) : FaceState :=
  if s.seq_pos = 8 * 3 then
    load_log_file fs
      { s with tick_compare := 3, tick_count := -1, seq_pos := 0,
               tick_fun := TickFun.transmit }
  else
    let s1 :=
      if s.seq_pos % 8 = 0 then { s with buzzerOn := true }
      else if s.seq_pos % 8 = 1 then { s with buzzerOn := false }
      else s
    { s1 with seq_pos := s1.seq_pos + 1 }

/-- `_chrip_setup`: request 64 Hz ticks, set the bell indicator and the
chirping flag, and initialise the countdown tick state. -/
def chirp_setup (s : FaceState) : FaceState :=
  { s with tickFreq := 64, bell := true, chirping := true,
           tick_count := -1, tick_compare := 8, seq_pos := 0,
           tick_fun := TickFun.countdown }

/-- The `EVENT_TICK` arm of `_chirping_loop`: while chirping, advance the
tick divider and, when it fires, reset it and invoke the stored tick
function.  `fs` feeds a countdown-phase load, `tone` feeds a
transmit-phase encoder query. -/
def chirping_tick (fs : FsEnv) (tone : Nat) (s : FaceState) : FaceState :=
  if s.chirping then
    let s1 := { s with tick_count := s.tick_count + 1 }
    if s1.tick_count = s1.tick_compare then
      match s1.tick_fun with
      | TickFun.countdown => chirp_countdown_tick fs { s1 with tick_count := 0 }
      | TickFun.transmit => chirp_tick_transmit tone { s1 with tick_count := 0 }
    else s1
  else s

/-- The `EVENT_MODE_BUTTON_UP` arm of `_chirping_loop`: cancel an active
transmission, then switch back to the recording page. -/
def chirping_mode_up (s : FaceState) : FaceState :=
  switch_to_recording (if s.chirping then (chirp_quit s).1 else s)

end StepLog

namespace StepLog

/-! ### Arithmetic lemmas -/

/-- On the 16-bit input range the branch-free absolute value agrees with the
mathematical absolute value (including the minimum value, where the `int`
promotion in the C code yields 32768). -/
theorem fast_abs16_eq (x : Int) (h1 : -32768 ≤ x) (h2 : x ≤ 32767) :
    fast_abs16 x = x.natAbs := by
  cases x with
  | ofNat n =>
    have hn : n ≤ 32767 := by
      simp only [Int.ofNat_eq_coe] at h2
      exact_mod_cast h2
    have h15 : n >>> 15 = 0 := by
      rw [Nat.shiftRight_eq_div_pow]
      omega
    have hs : (Int.ofNat n) >>> (15 : Int) = Int.ofNat 0 := by
      have h := Int.shiftRight_coe_nat n 15
      rw [h15] at h
      exact h
    unfold fast_abs16
    rw [hs]
    rw [show Int.ofNat n + Int.ofNat 0 = Int.ofNat n from rfl]
    rw [show Int.xor (Int.ofNat n) (Int.ofNat 0) = Int.ofNat (n ^^^ 0) from rfl]
    rw [Nat.xor_zero]
    simp only [Int.ofNat_eq_coe]
    omega
  | negSucc m =>
    have hm : m ≤ 32767 := by
      simp only [Int.negSucc_eq] at h1
      omega
    have h15 : m >>> 15 = 0 := by
      rw [Nat.shiftRight_eq_div_pow]
      omega
    have hs : (Int.negSucc m) >>> (15 : Int) = Int.negSucc 0 := by
      have h := Int.shiftRight_negSucc m 15
      rw [h15] at h
      exact h
    unfold fast_abs16
    rw [hs]
    rw [show Int.negSucc m + Int.negSucc 0 = Int.negSucc (m + 1) from rfl]
    rw [show Int.xor (Int.negSucc (m + 1)) (Int.negSucc 0) = Int.ofNat ((m + 1) ^^^ 0) from rfl]
    rw [Nat.xor_zero]
    simp only [Int.ofNat_eq_coe, Int.natAbs_negSucc]
    omega

/-- The mask-based identity named by the specification also computes the
absolute value on the 16-bit range. -/
theorem mask_abs_spec_eq (x : Int) (h1 : -32768 ≤ x) (h2 : x ≤ 32767) :
    mask_abs_spec x = (x.natAbs : Int) := by
  cases x with
  | ofNat n =>
    have hn : n ≤ 32767 := by
      simp only [Int.ofNat_eq_coe] at h2
      exact_mod_cast h2
    have h15 : n >>> 15 = 0 := by
      rw [Nat.shiftRight_eq_div_pow]
      omega
    have hs : (Int.ofNat n) >>> (15 : Int) = Int.ofNat 0 := by
      have h := Int.shiftRight_coe_nat n 15
      rw [h15] at h
      exact h
    unfold mask_abs_spec
    rw [hs]
    rw [show Int.xor (Int.ofNat n) (Int.ofNat 0) = Int.ofNat (n ^^^ 0) from rfl]
    rw [Nat.xor_zero]
    simp only [Int.ofNat_eq_coe]
    omega
  | negSucc m =>
    have hm : m ≤ 32767 := by
      simp only [Int.negSucc_eq] at h1
      omega
    have h15 : m >>> 15 = 0 := by
      rw [Nat.shiftRight_eq_div_pow]
      omega
    have hs : (Int.negSucc m) >>> (15 : Int) = Int.negSucc 0 := by
      have h := Int.shiftRight_negSucc m 15
      rw [h15] at h
      exact h
    unfold mask_abs_spec
    rw [hs]
    rw [show Int.xor (Int.negSucc m) (Int.negSucc 0) = Int.ofNat (m ^^^ 0) from rfl]
    rw [Nat.xor_zero]
    simp only [Int.ofNat_eq_coe, Int.natAbs_negSucc, Int.negSucc_eq]
    omega

/-- The first output of the sorting network is the maximum. -/
theorem sort3_fst (a b c : Nat) : (sort3 (a, b, c)).1 = max a (max b c) := by
  simp only [sort3]
  split_ifs <;> simp_all <;> omega

/-- The second output of the sorting network is the middle value. -/
theorem sort3_mid (a b c : Nat) :
    (sort3 (a, b, c)).2.1 = a + b + c - max a (max b c) - min a (min b c) := by
  simp only [sort3]
  split_ifs <;> simp_all <;> omega

/-- The third output of the sorting network is the minimum. -/
theorem sort3_min (a b c : Nat) : (sort3 (a, b, c)).2.2 = min a (min b c) := by
  simp only [sort3]
  split_ifs <;> simp_all <;> omega

/-- The sorting network permutes its input, so it preserves the sum of
squares. -/
theorem sort3_sumsq (a b c : Nat) :
    (sort3 (a, b, c)).1 ^ 2 + (sort3 (a, b, c)).2.1 ^ 2 + (sort3 (a, b, c)).2.2 ^ 2
      = a ^ 2 + b ^ 2 + c ^ 2 := by
  simp only [sort3]
  split_ifs <;> simp_all <;> ring

/-- Cauchy–Schwarz bound for the floor-rounded coefficient combination:
`(p + 15q/16 + 3r/8)² ≤ (517/256)·(p² + q² + r²)`. -/
theorem approx_sq_bound (p q r : Nat) :
    256 * (p + 15 * q / 16 + 3 * r / 8) ^ 2 ≤ 517 * (p ^ 2 + q ^ 2 + r ^ 2) := by
  have h16 : 16 * (p + 15 * q / 16 + 3 * r / 8) ≤ 16 * p + 15 * q + 6 * r := by omega
  have h2 : (16 * (p + 15 * q / 16 + 3 * r / 8)) ^ 2 ≤ (16 * p + 15 * q + 6 * r) ^ 2 :=
    Nat.pow_le_pow_left h16 2
  have h3 : (16 * p + 15 * q + 6 * r) ^ 2 ≤ 517 * (p ^ 2 + q ^ 2 + r ^ 2) := by
    zify
    nlinarith [sq_nonneg (15 * (p : Int) - 16 * q), sq_nonneg (6 * (p : Int) - 16 * r),
      sq_nonneg (6 * (q : Int) - 15 * r)]
  calc 256 * (p + 15 * q / 16 + 3 * r / 8) ^ 2
      = (16 * (p + 15 * q / 16 + 3 * r / 8)) ^ 2 := by ring
    _ ≤ (16 * p + 15 * q + 6 * r) ^ 2 := h2
    _ ≤ 517 * (p ^ 2 + q ^ 2 + r ^ 2) := h3

/-- C5: for every 3-axis signed 16-bit sample, `fast_l2_norm` equals the
specification formula: absolute values sorted descending as `a ≥ b ≥ c`,
then `a + floor(15*b/16) + floor(3*c/8)`. -/
theorem c5_fast_l2_matches_spec (r : Reading)
    (hx1 : -32768 ≤ r.x) (hx2 : r.x ≤ 32767)
    (hy1 : -32768 ≤ r.y) (hy2 : r.y ≤ 32767)
    (hz1 : -32768 ≤ r.z) (hz2 : r.z ≤ 32767) :
    fast_l2_norm r = approxL2_spec r.x r.y r.z := by
  unfold fast_l2_norm approxL2_spec
  rw [fast_abs16_eq r.x hx1 hx2, fast_abs16_eq r.y hy1 hy2, fast_abs16_eq r.z hz1 hz2]
  rw [sort3_fst, sort3_mid, sort3_min]
  rw [Nat.shiftRight_eq_div_pow, Nat.shiftRight_eq_div_pow]

/-- Witness for C5 at the sample `(3, -4, 12)`. -/
theorem c5_fast_l2_matches_spec_witness :
    fast_l2_norm ⟨3, -4, 12⟩ = approxL2_spec 3 (-4) 12 :=
  c5_fast_l2_matches_spec ⟨3, -4, 12⟩ (by decide) (by decide) (by decide) (by decide)
    (by decide) (by decide)

end StepLog

namespace StepLog

/-- C6 as stated fails: at the sample `(1000, 1000, 1000)` the approximate
norm is `1000 + 937 + 375 = 2312` while the true norm is `1000·sqrt 3 ≈ 1732`,
an overshoot of about 33%, far above the claimed ~6% bound
`10000·approx² ≤ 11236·(a² + b² + c²)`. -/
theorem c6_claim_counterexample :
    ¬ (10000 * fast_l2_norm ⟨1000, 1000, 1000⟩ ^ 2
        ≤ 11236 * ((1000 : Int).natAbs ^ 2 + (1000 : Int).natAbs ^ 2
            + (1000 : Int).natAbs ^ 2)) := by
  decide

/-- C6 amended: on 16-bit samples excluding the minimum value, the
approximate L2 norm never exceeds the true Euclidean norm by more than a
factor of `sqrt(517/256) ≈ 1.4211` (about +42.2%), stated over the integers
as `256·approx² ≤ 517·(a² + b² + c²)`; and when two of the three axes are
zero the result equals the absolute value of the remaining axis exactly. -/
theorem c6_amended_bound (r : Reading)
    (hx1 : -32767 ≤ r.x) (hx2 : r.x ≤ 32767)
    (hy1 : -32767 ≤ r.y) (hy2 : r.y ≤ 32767)
    (hz1 : -32767 ≤ r.z) (hz2 : r.z ≤ 32767) :
    256 * fast_l2_norm r ^ 2
        ≤ 517 * (r.x.natAbs ^ 2 + r.y.natAbs ^ 2 + r.z.natAbs ^ 2) ∧
    (r.y = 0 → r.z = 0 → fast_l2_norm r = r.x.natAbs) ∧
    (r.x = 0 → r.z = 0 → fast_l2_norm r = r.y.natAbs) ∧
    (r.x = 0 → r.y = 0 → fast_l2_norm r = r.z.natAbs) := by
  have hax := fast_abs16_eq r.x (by omega) hx2
  have hay := fast_abs16_eq r.y (by omega) hy2
  have haz := fast_abs16_eq r.z (by omega) hz2
  have hmain : fast_l2_norm r =
      (sort3 (r.x.natAbs, r.y.natAbs, r.z.natAbs)).1
        + 15 * (sort3 (r.x.natAbs, r.y.natAbs, r.z.natAbs)).2.1 / 16
        + 3 * (sort3 (r.x.natAbs, r.y.natAbs, r.z.natAbs)).2.2 / 8 := by
    unfold fast_l2_norm
    rw [hax, hay, haz, Nat.shiftRight_eq_div_pow, Nat.shiftRight_eq_div_pow]
  refine ⟨?_, ?_, ?_, ?_⟩
  · rw [hmain]
    calc 256 * ((sort3 (r.x.natAbs, r.y.natAbs, r.z.natAbs)).1
          + 15 * (sort3 (r.x.natAbs, r.y.natAbs, r.z.natAbs)).2.1 / 16
          + 3 * (sort3 (r.x.natAbs, r.y.natAbs, r.z.natAbs)).2.2 / 8) ^ 2
        ≤ 517 * ((sort3 (r.x.natAbs, r.y.natAbs, r.z.natAbs)).1 ^ 2
            + (sort3 (r.x.natAbs, r.y.natAbs, r.z.natAbs)).2.1 ^ 2
            + (sort3 (r.x.natAbs, r.y.natAbs, r.z.natAbs)).2.2 ^ 2) :=
          approx_sq_bound _ _ _
      _ = 517 * (r.x.natAbs ^ 2 + r.y.natAbs ^ 2 + r.z.natAbs ^ 2) := by
          rw [sort3_sumsq]
  · intro hy0 hz0
    rw [hmain, hy0, hz0]
    simp only [Int.natAbs_zero]
    rw [sort3_fst, sort3_mid, sort3_min]
    omega
  · intro hx0 hz0
    rw [hmain, hx0, hz0]
    simp only [Int.natAbs_zero]
    rw [sort3_fst, sort3_mid, sort3_min]
    omega
  · intro hx0 hy0
    rw [hmain, hx0, hy0]
    simp only [Int.natAbs_zero]
    rw [sort3_fst, sort3_mid, sort3_min]
    omega

/-- Witness for the amended C6 at the sample `(1000, 1000, 1000)`. -/
theorem c6_amended_bound_witness :
    (256 * fast_l2_norm ⟨1000, 1000, 1000⟩ ^ 2
        ≤ 517 * ((1000 : Int).natAbs ^ 2 + (1000 : Int).natAbs ^ 2
            + (1000 : Int).natAbs ^ 2)) ∧
    ((1000 : Int) = 0 → (1000 : Int) = 0 → fast_l2_norm ⟨1000, 1000, 1000⟩ = (1000 : Int).natAbs) ∧
    ((1000 : Int) = 0 → (1000 : Int) = 0 → fast_l2_norm ⟨1000, 1000, 1000⟩ = (1000 : Int).natAbs) ∧
    ((1000 : Int) = 0 → (1000 : Int) = 0 → fast_l2_norm ⟨1000, 1000, 1000⟩ = (1000 : Int).natAbs) :=
  c6_amended_bound ⟨1000, 1000, 1000⟩ (by decide) (by decide) (by decide) (by decide)
    (by decide) (by decide)

/-- C9: on the 16-bit range excluding the minimum value `-32768`, the
branch-free helper `fast_abs16` returns the standard absolute value, and its
result coincides with the mask-based identity `(x ^ (x >> 15)) - (x >> 15)`
named by the specification. -/
theorem c9_fast_abs16_correct (x : Int)
    (h1 : -32768 ≤ x) (h2 : x ≤ 32767) (_h3 : x ≠ -32768) :
    fast_abs16 x = x.natAbs ∧ (fast_abs16 x : Int) = mask_abs_spec x := by
  refine ⟨fast_abs16_eq x h1 h2, ?_⟩
  rw [fast_abs16_eq x h1 h2, mask_abs_spec_eq x h1 h2]

/-- Witness for C9 at `x = -12345`. -/
theorem c9_fast_abs16_correct_witness :
    fast_abs16 (-12345) = (-12345 : Int).natAbs ∧
    (fast_abs16 (-12345) : Int) = mask_abs_spec (-12345) :=
  c9_fast_abs16_correct (-12345) (by decide) (by decide) (by decide)

end StepLog

namespace StepLog

/-- Concrete states and environments used to instantiate the claims. -/
def c1_state : FaceState := { setupState with start_ts := 1700000000, fileOpen := true }

def c1_env : RecEnv where
  fifo := [⟨3, -4, 12⟩]
  freeSpace := 100
  wok := fun _ => true

def c2_state : FaceState := { chirp_setup (switch_to_chirping setupState) with seq_pos := 8 * 3 }

def c2_fs_missing : FsEnv where
  fileExists := false
  fileSize := 0
  mallocOk := true
  readOk := true
  contents := []

def c2_fs_nomem : FsEnv where
  fileExists := true
  fileSize := 40
  mallocOk := false
  readOk := true
  contents := []

def c4_state : FaceState := { setupState with page := Page.labeling, steps := 5 }

def c10_state : FaceState := { setupState with page := Page.labeling, steps := 23 }

/-- The data-writing pass of the recording tick never touches the session
fields other than `error`. -/
theorem log_data_preserves (wok : Nat → Bool) (fifo : List Reading) (s : FaceState) :
    ((log_data wok fifo s).1).start_ts = s.start_ts ∧
    ((log_data wok fifo s).1).index = s.index ∧
    ((log_data wok fifo s).1).page = s.page ∧
    ((log_data wok fifo s).1).fileOpen = s.fileOpen ∧
    ((log_data wok fifo s).1).tickFreq = s.tickFreq := by
  simp only [log_data]
  split_ifs <;> exact ⟨rfl, rfl, rfl, rfl, rfl⟩

/-- C1 as stated fails: with the free space already below the 512-byte
threshold at the start of a recording tick, the handler still writes the
tick's data block, because `_enforce_quota` runs only after `_log_data`.
The session is ended and the page switches to Labeling, but the block was
appended during that same tick. -/
theorem c1_claim_counterexample :
    c1_env.freeSpace < (MIN_FS_SPACE : Int) ∧
    c1_state.start_ts ≠ 0 ∧
    (recording_tick c1_env c1_state).1.page = Page.labeling ∧
    (recording_tick c1_env c1_state).1.start_ts = 0 ∧
    (recording_tick c1_env c1_state).2 ≠ [] := by
  decide

/-- C1 amended: on a recording tick that starts with free space below the
threshold, the handler first performs the data-block write of that tick and
only then ends the session (file closed, `start_ts` reset, index
incremented) and transitions to Labeling at 4 Hz. -/
theorem c1_quota_ends_session_after_write (env : RecEnv) (s : FaceState)
    (hrec : s.start_ts ≠ 0) (hfs : env.freeSpace < (MIN_FS_SPACE : Int)) :
    (recording_tick env s).1.start_ts = 0 ∧
    (recording_tick env s).1.fileOpen = false ∧
    (recording_tick env s).1.index = (s.index + 1) % 256 ∧
    (recording_tick env s).1.page = Page.labeling ∧
    (recording_tick env s).1.tickFreq = 4 ∧
    (recording_tick env s).2 = (log_data env.wok env.fifo s).2 := by
  obtain ⟨h1, h2, h3, h4, h5⟩ := log_data_preserves env.wok env.fifo s
  unfold recording_tick
  rw [if_pos hrec]
  unfold enforce_quota
  rw [if_pos hfs]
  unfold switch_to_labeling stop_recording log_close
  refine ⟨rfl, rfl, ?_, rfl, rfl, rfl⟩
  exact congrArg (fun n => (n + 1) % 256) h2

/-- Witness for the amended C1 at the concrete low-space tick. -/
theorem c1_quota_ends_session_after_write_witness :
    (recording_tick c1_env c1_state).1.start_ts = 0 ∧
    (recording_tick c1_env c1_state).1.fileOpen = false ∧
    (recording_tick c1_env c1_state).1.index = (c1_state.index + 1) % 256 ∧
    (recording_tick c1_env c1_state).1.page = Page.labeling ∧
    (recording_tick c1_env c1_state).1.tickFreq = 4 ∧
    (recording_tick c1_env c1_state).2 = (log_data c1_env.wok c1_env.fifo c1_state).2 :=
  c1_quota_ends_session_after_write c1_env c1_state (by decide) (by decide)

/-- C2 fails against the code: the countdown-final tick installs
`_chirp_tick_transmit` and leaves `chirping` set before `_load_log_file`
runs, so when the load fails (file missing, or allocation failure) the
error is surfaced but the scheduler still proceeds to the Transmitting
phase; after an allocation failure it moreover leaves `chirp_data_len`
nonzero with a NULL buffer pointer. -/
theorem c2_load_failure_not_aborted :
    (chirp_countdown_tick c2_fs_missing c2_state).error = ERROR_OPEN_FILE ∧
    (chirp_countdown_tick c2_fs_missing c2_state).tick_fun = TickFun.transmit ∧
    (chirp_countdown_tick c2_fs_missing c2_state).chirping = true ∧
    (chirp_countdown_tick c2_fs_nomem c2_state).error = ERROR_ALLOC_MEM ∧
    (chirp_countdown_tick c2_fs_nomem c2_state).tick_fun = TickFun.transmit ∧
    (chirp_countdown_tick c2_fs_nomem c2_state).chirping = true ∧
    (chirp_countdown_tick c2_fs_nomem c2_state).chirp_data_ptr = none ∧
    (chirp_countdown_tick c2_fs_nomem c2_state).chirp_data_len = 40 := by
  decide

/-- C3 fails against the code: `_start_recording` assigns `start_ts` from
the clock without ever checking whether `_log_open` succeeded, so a failed
open at session start leaves `start_ts` nonzero with no open log file,
violating the claimed invariant. -/
theorem c3_invariant_violated_on_open_failure :
    (start_recording false false 1700000000 setupState).start_ts ≠ 0 ∧
    (start_recording false false 1700000000 setupState).fileOpen = false ∧
    (start_recording false false 1700000000 setupState).error ≠ 0 := by
  decide

/-- C4 fails against the code: the `EVENT_LIGHT_BUTTON_DOWN` arm executes
`steps = (steps > 0) ? steps - 1 : 0`, a decrement by one clamped at zero,
not the decrement by ten required by the claim (and by the comment block in
`stepcounter_logging_face.h`); at `steps = 5` the code yields 4 while
`max(5 - 10, 0) = 0`. -/
theorem c4_light_down_decrements_by_one :
    (labeling_light_down c4_state).steps = 4 ∧
    (labeling_light_down c4_state).steps ≠ max (5 - 10) 0 := by
  decide

/-- C7: on receiving the sentinel tone 255, the transmit tick performs the
complete teardown: buzzer stopped, buffer pointer NULL, cursor and length
zero, 1 Hz tick rate requested, chirping flag cleared. -/
theorem c7_sentinel_full_teardown (s : FaceState) :
    (chirp_tick_transmit 255 s).buzzerOn = false ∧
    (chirp_tick_transmit 255 s).chirp_data_ptr = none ∧
    (chirp_tick_transmit 255 s).chirp_data_ix = 0 ∧
    (chirp_tick_transmit 255 s).chirp_data_len = 0 ∧
    (chirp_tick_transmit 255 s).tickFreq = 1 ∧
    (chirp_tick_transmit 255 s).chirping = false := by
  simp [chirp_tick_transmit, chirp_quit]

/-- C8: `_chirp_quit` is idempotent — a second invocation right after a
cancel (and hence any invocation from the already-idle teardown state)
reproduces exactly the same terminal state and does not call `free` on the
buffer again. -/
theorem c8_cancel_idempotent (s : FaceState) :
    (chirp_quit (chirp_quit s).1).1 = (chirp_quit s).1 ∧
    (chirp_quit (chirp_quit s).1).2 = false := by
  exact ⟨rfl, rfl⟩

/-- C10: if either write of the step-marker commit is short (`r1 ≠ 1` for
the marker byte, or `r2 ≠ 2` for the step count), `_log_steps` sets
`ERROR_WRITE_DATA`, leaves the pending step count unchanged, and returns
without closing the just-opened file handle. -/
theorem c10_log_steps_short_write (s : FaceState) (openOk : Bool) (r1 r2 : Nat)
    (h : r1 ≠ 1 ∨ r2 ≠ 2) :
    (log_steps openOk r1 r2 s).error = ERROR_WRITE_DATA ∧
    (log_steps openOk r1 r2 s).steps = s.steps ∧
    (openOk = true → (log_steps openOk r1 r2 s).fileOpen = true) := by
  unfold log_steps log_open
  split_ifs <;> simp_all

/-- Witness for C10: marker write returns 0 bytes on an open file. -/
theorem c10_log_steps_short_write_witness :
    (log_steps true 0 0 c10_state).error = ERROR_WRITE_DATA ∧
    (log_steps true 0 0 c10_state).steps = c10_state.steps ∧
    (true = true → (log_steps true 0 0 c10_state).fileOpen = true) :=
  c10_log_steps_short_write c10_state true 0 0 (by decide)

end StepLog
